import Mathlib

/-!
Shallow embedding of the two checking pipelines of this repository:

* pipeline A: verifier.py (environment provisioning, per-file syntax check,
  module-import verification in a subprocess, JSON report, cleanup);
* pipeline B: detect_health.py (per-file syntax check, pyflakes static
  semantic check).

Python strings are modelled as lists of characters.  The external world
(file reading, parsing, subprocess execution) is modelled by explicit
outcome types; every Python function of the source becomes a total Lean
function over those outcomes.  Uncaught Python exceptions are modelled by
the error branch of Except.
-/

set_option maxRecDepth 4096

/-- Python strings are modelled as lists of characters. -/
abbrev Str := List Char

/-! ## String utilities mirroring the Python primitives used by the source -/

/-- Characters removed by the Python method str.strip() (ASCII whitespace). -/
def pySpace (c : Char) : Bool :=
  c = ' ' || c = '\t' || c = '\n' || c = '\r' || c = '\x0b' || c = '\x0c'

/-- Python s.strip(): drop leading and trailing whitespace. -/
def pyStrip (s : Str) : Str :=
  ((s.dropWhile pySpace).reverse.dropWhile pySpace).reverse

/-- Decides whether pat is a leading segment of s (Python s.startswith(pat)). -/
def prefixCheck : Str → Str → Bool
  | [], _ => true
  | _ :: _, [] => false
  | a :: as, b :: bs => a == b && prefixCheck as bs

/-- Decides whether pat is a trailing segment of s (Python s.endswith(pat)). -/
def endCheck (pat s : Str) : Bool := prefixCheck pat.reverse s.reverse

/-- Decides whether pat occurs contiguously inside s (Python: pat in s). -/
def occurs (pat : Str) : Str → Bool
  | [] => prefixCheck pat []
  | c :: cs => prefixCheck pat (c :: cs) || occurs pat cs

/-- Fuel-driven worker for removeAll; the fuel is an upper bound on the
number of characters still to be scanned. -/
def removeAllFuel (pat : Str) : Nat → Str → Str
  | _, [] => []
  | 0, s => s
  | Nat.succ n, c :: cs =>
    if pat ≠ [] ∧ prefixCheck pat (c :: cs) then
      removeAllFuel pat n (List.drop pat.length (c :: cs))
    else
      c :: removeAllFuel pat n cs

/-- Python s.replace(pat, empty): remove every occurrence of pat from s,
scanning left to right without overlap. -/
def removeAll (pat s : Str) : Str := removeAllFuel pat s.length s

/-- Strip pat from the end of s when it is a trailing segment, else return s
unchanged.  Used only to state what the spec text describes. -/
def removeEnd (pat s : Str) : Str :=
  if endCheck pat s then s.take (s.length - pat.length) else s

/-- Python s.splitlines() restricted to the newline character: an empty
string yields no lines, and a trailing newline does not add an empty line. -/
def splitlines : Str → List Str
  | [] => []
  | c :: cs =>
    if c = '\n' then [] :: splitlines cs
    else
      match splitlines cs with
      | [] => [[c]]
      | l :: ls => (c :: l) :: ls

/-- Python truthiness of an optional string: None and the empty string are
falsy, every other string is truthy. -/
def pyTruthy : Option Str → Bool
  | none => false
  | some s => !s.isEmpty

/-- Decimal representation of a natural number, as in a Python f-string. -/
def natStr (n : Nat) : Str := (Nat.repr n).toList

/-- Decimal representation of an integer, as in a Python f-string. -/
def intStr : Int → Str
  | Int.ofNat n => natStr n
  | Int.negSucc n => '-' :: natStr (n + 1)

/-! ## Shared oracle for reading and parsing one file

Both check_syntax functions open the file, read it as UTF-8 and hand the
text to ast.parse.  The outcome of that interaction with the external world
is one of: the parse succeeded, ast.parse raised SyntaxError (with a
diagnostic message and a line number), or reading the file raised some
other exception (missing file, decoding failure, permission error). -/

inductive SyntaxOutcome where
  | parseOk
  | parseFail (msg : Str) (lineno : Nat)
  | readFail (exc : Str)

/-- Message produced by both checkers on a parse failure, from the f-string
in the source: SyntaxError plus the diagnostic and the line number. -/
def synMsg (m : Str) (n : Nat) : Str :=
  "SyntaxError: ".toList ++ m ++ " at line ".toList ++ natStr n

/-- Closing parenthesis used by several wrapped messages. -/
def closeParenS : Str := ")".toList

/-- Leading text of the read-failure message of verifier.py. -/
def readPreA : Str := "FileReadError: cannot read file (".toList

/-- Read-failure message of check_syntax in verifier.py. -/
def readMsgA (e : Str) : Str := readPreA ++ e ++ closeParenS

/-- Leading text of the read-failure message of detect_health.py. -/
def readPreB : Str := "SyntaxError: cannot read file (".toList

/-- Read-failure message of check_syntax in detect_health.py. -/
def readMsgB (e : Str) : Str := readPreB ++ e ++ closeParenS

/-- check_syntax of verifier.py: None on success, the SyntaxError message on
a parse failure, a FileReadError message on any other failure. -/
def checkSyntaxA : SyntaxOutcome → Option Str
  | SyntaxOutcome.parseOk => none
  | SyntaxOutcome.parseFail m n => some (synMsg m n)
  | SyntaxOutcome.readFail e => some (readMsgA e)

/-- check_syntax of detect_health.py: identical except that the read-failure
message is also prefixed with SyntaxError. -/
def checkSyntaxB : SyntaxOutcome → Option Str
  | SyntaxOutcome.parseOk => none
  | SyntaxOutcome.parseFail m n => some (synMsg m n)
  | SyntaxOutcome.readFail e => some (readMsgB e)

/-! ## Pipeline B: detect_health.py -/

/-- Outcome of the pyflakes subprocess: either subprocess.run returned (with
a return code and captured stdout and stderr), or launching it raised an
exception whose text is recorded. -/
inductive PyflakesOutcome where
  | completed (returncode : Int) (stdout stderr : Str)
  | launchFail (exc : Str)

/-- Pipeline B status strings. -/
def stBSyntaxError : Str := "syntax_error".toList

/-- Pipeline B status for a tool-execution failure. -/
def stBError : Str := "error".toList

/-- Pipeline B status for linter findings. -/
def stBSemanticError : Str := "semantic_error".toList

/-- Pipeline B status for a clean file. -/
def stBOk : Str := "ok".toList

/-- The four pipeline B statuses. -/
def statusEnumB : List Str := [stBSyntaxError, stBError, stBSemanticError, stBOk]

/-- Message of check_pyflakes when the subprocess exits non-zero with no
captured standard output. -/
def pfFailMsg (rc : Int) : Str :=
  "Pyflakes execution failed with return code ".toList ++ intStr rc

/-- The prefix by which check_file recognises a tool-execution failure. -/
def rtePre : Str := "pyflakes_runtime_error".toList

/-- Prefix of the generic launch-failure message of check_pyflakes. -/
def rtePreCol : Str := "pyflakes_runtime_error: ".toList

/-- Signature of the Windows access-denied launch failure. -/
def winErrSig : Str := "WinError 5".toList

/-- Explicit hint message for the access-denied launch failure. -/
def winErrMsg : Str :=
  "pyflakes_runtime_error: Access Denied (WinError 5). Check file execution rights.".toList

/-- check_pyflakes of detect_health.py.  The captured standard error is
ignored by the source; classification uses only the return code and the
stripped standard output. -/
def check_pyflakes : PyflakesOutcome → Option Str
  | PyflakesOutcome.completed rc out _ =>
    if rc ≠ 0 ∧ pyStrip out = [] then some (pfFailMsg rc)
    else if pyStrip out ≠ [] then some (pyStrip out)
    else none
  | PyflakesOutcome.launchFail e =>
    if occurs winErrSig e then some winErrMsg
    else some (rtePreCol ++ e)

/-- Python semantic.startswith applied under the truthiness guard of the
source line: false on None. -/
def optHasPrefixRTE : Option Str → Bool
  | none => false
  | some s => prefixCheck rtePre s

/-- Result object of check_file: a status and an optional message (the ok
result carries no message key). -/
structure BResult where
  status : Str
  message : Option Str

/-- check_file of detect_health.py: syntax check first, then the pyflakes
check, with the tool-failure prefix test deciding between error and
semantic_error. -/
def check_file (synO : SyntaxOutcome) (pfO : PyflakesOutcome) : BResult :=
  if pyTruthy (checkSyntaxB synO) then
    BResult.mk stBSyntaxError (checkSyntaxB synO)
  else
    if pyTruthy (check_pyflakes pfO) && optHasPrefixRTE (check_pyflakes pfO) then
      BResult.mk stBError (check_pyflakes pfO)
    else if pyTruthy (check_pyflakes pfO) then
      BResult.mk stBSemanticError (check_pyflakes pfO)
    else
      BResult.mk stBOk none

/-! ## Pipeline A: verifier.py -/

/-- Pipeline A status string for a clean import. -/
def stSuccess : Str := "SUCCESS".toList

/-- Pipeline A status for an import failing with a missing-module signature. -/
def stDependencyFailure : Str := "DEPENDENCY_FAILURE".toList

/-- Pipeline A status for any other non-zero import exit. -/
def stRuntimeFailure : Str := "RUNTIME_FAILURE".toList

/-- Pipeline A status for timeouts, launch failures and name-derivation
failures. -/
def stFailure : Str := "FAILURE".toList

/-- Pipeline A status for a file that does not parse. -/
def stSyntaxError : Str := "SYNTAX_ERROR".toList

/-- The five pipeline A statuses. -/
def statusEnum : List Str :=
  [stSyntaxError, stSuccess, stDependencyFailure, stRuntimeFailure, stFailure]

/-- The path separator that run_import_test rewrites into dots: os.path.sep,
which is the backslash on the Windows platform the source targets. -/
def pathSep : Char := '\\'

/-- The source-file extension removed by run_import_test. -/
def extPy : Str := ".py".toList

/-- The package-initializer segment collapsed by run_import_test. -/
def segInit : Str := ".__init__".toList

/-- The error signature separating dependency failures from runtime
failures. -/
def mnfSig : Str := "ModuleNotFoundError".toList

/-- The configured import timeout, TIMEOUT_SECONDS in the source. -/
def TIMEOUT_SECONDS : Nat := 15

/-- Message returned when the derived module name is empty. -/
def deriveFailMsg : Str := "无法将文件转换为有效的模块名进行导入".toList

/-- Message returned when the import subprocess exceeds the timeout, from
the f-string citing TIMEOUT_SECONDS. -/
def timeoutMsg : Str :=
  "脚本执行超时 (超过 ".toList ++ natStr TIMEOUT_SECONDS ++ " 秒)".toList

/-- Leading text of the message for an unexpected subprocess exception. -/
def unknownErrPre : Str := "未知执行错误: ".toList

/-- Python relative.replace(os.path.sep, dot): a single-character pattern,
so the replacement is a character-wise map. -/
def dotify (s : Str) : Str := s.map (fun c => if c = pathSep then '.' else c)

/-- Module name derivation of run_import_test: path separators become dots,
every occurrence of .py is removed, and if the name then ends in the
.__init__ segment every occurrence of that segment is removed. -/
def deriveModuleName (relativePath : Str) : Str :=
  if endCheck segInit (removeAll extPy (dotify relativePath)) then
    removeAll segInit (removeAll extPy (dotify relativePath))
  else
    removeAll extPy (dotify relativePath)

/-- Outcome of the import subprocess: it ran to completion with a return
code and captured output, it exceeded the timeout, or launching it raised
an unexpected exception. -/
inductive ImportOutcome where
  | completed (returncode : Int) (stdout stderr : Str)
  | timedOut
  | launchFail (exc : Str)

/-- Classification of a subprocess outcome by run_import_test, from the try
block of the source: exit code 0 is success; otherwise the stripped
concatenation of stdout and stderr decides between dependency failure and
runtime failure; timeout and launch failures map to the generic failure. -/
def importResult : ImportOutcome → Str × Option Str
  | ImportOutcome.completed rc out err =>
    if rc ≠ 0 then
      if occurs mnfSig (pyStrip (out ++ err)) then
        (stDependencyFailure, some (pyStrip (out ++ err)))
      else
        (stRuntimeFailure, some (pyStrip (out ++ err)))
    else
      (stSuccess, none)
  | ImportOutcome.timedOut => (stFailure, some timeoutMsg)
  | ImportOutcome.launchFail e => (stFailure, some (unknownErrPre ++ e))

/-- run_import_test of verifier.py, over the relative path of the target
file (os.path.relpath of the joined path against the project root gives
back the relative path) and the outcome of the import subprocess.  An empty
derived module name returns FAILURE before the subprocess is consulted. -/
def run_import_test (oc : ImportOutcome) (relativePath : Str) : Str × Option Str :=
  if deriveModuleName relativePath = [] then (stFailure, some deriveFailMsg)
  else importResult oc

/-! ## The aggregator: main of verifier.py -/

/-- os.path.basename: the segment after the last path separator; on the
Windows path module both the backslash and the slash separate. -/
def basename (s : Str) : Str :=
  s.foldl (fun acc c => if c = '\\' ∨ c = '/' then [] else acc ++ [c]) []

/-- One Check Result of the report, an element of the final JSON array. -/
structure CheckResult where
  file : Str
  status : Str
  error : Option Str

/-- The per-file external world: the relative path given on the command
line, the outcome of reading and parsing the file, and the outcome of
the module-import subprocess. -/
structure FileInput where
  relPath : Str
  syn : SyntaxOutcome
  imp : ImportOutcome

/-- Message of the uncaught exception raised by indexing an empty
splitlines list in the diagnostic print of main. -/
def indexErrMsg : Str := "IndexError".toList

/-- Message of the uncaught exception raised by calling splitlines on None
in the diagnostic print of main. -/
def attrErrMsg : Str := "AttributeError".toList

/-- The diagnostic print indexing the first line of the error detail, as in
error.splitlines() at index zero: raises on None or an empty line list. -/
def diagFront : Option Str → Except Str Unit
  | none => Except.error attrErrMsg
  | some e =>
    match (splitlines e).head? with
    | none => Except.error indexErrMsg
    | some _ => Except.ok ()

/-- The diagnostic print indexing the last line of the error detail, as in
error.splitlines() at index minus one: raises on None or an empty list. -/
def diagBack : Option Str → Except Str Unit
  | none => Except.error attrErrMsg
  | some e =>
    match (splitlines e).getLast? with
    | none => Except.error indexErrMsg
    | some _ => Except.ok ()

/-- The status-dependent diagnostic print of the main loop after stage two:
success prints no detail, dependency and runtime failures print the last
line of the detail, every other failure prints the first line. -/
def diagOk (status : Str) (error : Option Str) : Except Str Unit :=
  if status = stSuccess then Except.ok ()
  else if status = stDependencyFailure then diagBack error
  else if status = stRuntimeFailure then diagBack error
  else diagFront error

/-- Stage two of the main loop: run the import test, perform the diagnostic
print (which may raise), and build the Check Result from the status and
error of run_import_test. -/
def stage2 (fi : FileInput) : Except Str CheckResult :=
  match diagOk (run_import_test fi.imp fi.relPath).1 (run_import_test fi.imp fi.relPath).2 with
  | Except.error e => Except.error e
  | Except.ok _ =>
    Except.ok
      (CheckResult.mk (basename fi.relPath) (run_import_test fi.imp fi.relPath).1
        (run_import_test fi.imp fi.relPath).2)

/-- One iteration of the main loop: the syntax check first; a truthy syntax
error yields the SYNTAX_ERROR result (after the diagnostic print indexing
the first line of the message); otherwise stage two runs. -/
def processFile (fi : FileInput) : Except Str CheckResult :=
  match checkSyntaxA fi.syn with
  | some e =>
    if e = [] then stage2 fi
    else
      match (splitlines e).head? with
      | none => Except.error indexErrMsg
      | some _ => Except.ok (CheckResult.mk (basename fi.relPath) stSyntaxError (some e))
  | none => stage2 fi

/-- The whole main loop: results accumulate in input order; an uncaught
exception aborts the run before the report is printed. -/
def processAll : List FileInput → Except Str (List CheckResult)
  | [] => Except.ok []
  | fi :: rest =>
    match processFile fi with
    | Except.error e => Except.error e
    | Except.ok r =>
      match processAll rest with
      | Except.error e => Except.error e
      | Except.ok rs => Except.ok (r :: rs)

/-! ## Provisioning and the whole run -/

/-- The two recognised dependency-declaration files, DEP_FILES. -/
inductive DepKind where
  | requirementsTxt
  | pyprojectToml

/-- The external world of one whole pipeline A run. -/
structure WorldA where
  venvCreateOk : Bool
  venvDirMade : Bool
  pyExeFound : Bool
  depFile : Option DepKind
  pipUpgradeOk : Bool
  pipInstallOk : Bool
  files : List FileInput
  rmtreeOk : Bool

/-- install_dependencies of verifier.py: false when venv creation fails,
when the venv interpreter is missing, or when a dependency file exists and
the pip upgrade or install fails; true otherwise (no dependency file means
installation is skipped). -/
def install_dependencies (w : WorldA) : Bool :=
  if !w.venvCreateOk then false
  else if !w.pyExeFound then false
  else
    match w.depFile with
    | some _ => w.pipUpgradeOk && w.pipInstallOk
    | none => true

/-- The observable outcome of a completed run of main. -/
structure RunOutcome where
  exitCode : Nat
  report : List CheckResult
  reportEmitted : Bool
  venvExists : Bool
  cleanupWarn : Bool

/-- main of verifier.py.  A failed install_dependencies exits 1 at once
(no cleanup, so the venv directory stays as the create attempt left it).
Otherwise the loop runs; an uncaught exception aborts the process (the
Except error case).  On completion the report is printed, the cleanup
rmtree either removes the directory or logs a warning, and the process
exits 0. -/
def mainA (w : WorldA) : Except Str RunOutcome :=
  if install_dependencies w then
    match processAll w.files with
    | Except.error e => Except.error e
    | Except.ok results =>
      if w.rmtreeOk then Except.ok (RunOutcome.mk 0 results true false false)
      else Except.ok (RunOutcome.mk 0 results true w.venvDirMade true)
  else
    Except.ok (RunOutcome.mk 1 [] false w.venvDirMade false)

/-- The exit status of the operating-system process for a pipeline A run:
the recorded exit code of a completed run, and 1 for a run killed by an
uncaught exception, because the interpreter exits an uncaught-exception
run with status 1. -/
def processExitCode (w : WorldA) : Nat :=
  match mainA w with
  | Except.ok outR => outR.exitCode
  | Except.error _ => 1

/-! ## General lemmas about the string utilities -/

/-- A string is a leading segment of itself followed by anything. -/
theorem prefixCheck_refl_append (p b : Str) : prefixCheck p (p ++ b) = true := by
  induction p with
  | nil => rfl
  | cons c cs ih => simp [prefixCheck, ih]

/-- A true leading-segment test survives appending on the right. -/
theorem prefixCheck_append_right (p q r : Str) (h : prefixCheck p q = true) :
    prefixCheck p (q ++ r) = true := by
  induction p generalizing q with
  | nil => rfl
  | cons c cs ih =>
    cases q with
    | nil => simp [prefixCheck] at h
    | cons d ds =>
      simp only [prefixCheck, Bool.and_eq_true, beq_iff_eq] at h
      simp [prefixCheck, h.1, ih ds h.2]

/-- The occurrence test finds a pattern placed anywhere inside a string. -/
theorem occurs_append (p a b : Str) : occurs p (a ++ p ++ b) = true := by
  induction a with
  | nil =>
    cases p with
    | nil => cases b <;> simp [occurs, prefixCheck]
    | cons c cs =>
      simp only [List.nil_append, List.cons_append, occurs]
      have h : prefixCheck (c :: cs) ((c :: cs) ++ b) = true :=
        prefixCheck_refl_append (c :: cs) b
      simp only [List.cons_append] at h
      simp [h]
  | cons c as ih =>
    have ih2 : occurs p (as ++ (p ++ b)) = true := by
      simpa [List.append_assoc] using ih
    simp [occurs, ih2]

/-- The line list of a nonempty string is nonempty. -/
theorem splitlines_ne_nil (c : Char) (cs : Str) : splitlines (c :: cs) ≠ [] := by
  simp only [splitlines]
  by_cases hc : c = '\n'
  · simp [hc]
  · rw [if_neg hc]
    cases hsc : splitlines cs <;> simp

/-- The line list of a string is empty exactly for the empty string. -/
theorem splitlines_eq_nil_iff (s : Str) : splitlines s = [] ↔ s = [] := by
  cases s with
  | nil => simp [splitlines]
  | cons c cs => simp [splitlines_ne_nil]

/-! ## Claim theorems for pipeline B -/

/-- Claim C8: for every file the syntax checkers always return a result
value (they are total functions of the read-and-parse outcome): no error on
a clean parse; on a parse failure a message containing the diagnostic text
of the parser and the offending line number; on any other failure while
obtaining the text a distinct cannot-read-file message wrapping the
underlying cause.  This covers check_syntax of verifier.py (A) and of
detect_health.py (B). -/
theorem c8_syntax_checker_total :
    (checkSyntaxA SyntaxOutcome.parseOk = none ∧ checkSyntaxB SyntaxOutcome.parseOk = none) ∧
    (∀ (m : Str) (n : Nat),
      checkSyntaxA (SyntaxOutcome.parseFail m n) = some (synMsg m n) ∧
      checkSyntaxB (SyntaxOutcome.parseFail m n) = some (synMsg m n) ∧
      occurs m (synMsg m n) = true ∧
      occurs (natStr n) (synMsg m n) = true) ∧
    (∀ e : Str,
      checkSyntaxA (SyntaxOutcome.readFail e) = some (readMsgA e) ∧
      checkSyntaxB (SyntaxOutcome.readFail e) = some (readMsgB e) ∧
      occurs ("cannot read file".toList) (readMsgA e) = true ∧
      occurs ("cannot read file".toList) (readMsgB e) = true ∧
      occurs e (readMsgA e) = true ∧
      occurs e (readMsgB e) = true) := by
  refine ⟨⟨rfl, rfl⟩, ?_, ?_⟩
  · intro m n
    refine ⟨rfl, rfl, ?_, ?_⟩
    · have h := occurs_append m ("SyntaxError: ".toList) (" at line ".toList ++ natStr n)
      simpa [synMsg, List.append_assoc] using h
    · have h := occurs_append (natStr n)
        ("SyntaxError: ".toList ++ m ++ " at line ".toList) []
      simpa [synMsg, List.append_assoc] using h
  · intro e
    refine ⟨rfl, rfl, rfl, rfl, ?_, ?_⟩
    · exact occurs_append e readPreA closeParenS
    · exact occurs_append e readPreB closeParenS

/-- Claim C10: in pipeline B a file that cannot be read at all yields the
overall status syntax_error, not error, and its message begins with
SyntaxError: cannot read file, because check_syntax folds read failures
into its syntax-error message. -/
theorem c10_read_failure (e : Str) (pfO : PyflakesOutcome) :
    check_file (SyntaxOutcome.readFail e) pfO = BResult.mk stBSyntaxError (some (readMsgB e)) ∧
    prefixCheck ("SyntaxError: cannot read file".toList) (readMsgB e) = true ∧
    stBSyntaxError ≠ stBError := by
  refine ⟨rfl, ?_, by decide⟩
  have h : prefixCheck ("SyntaxError: cannot read file".toList) readPreB = true := by decide
  have h2 := prefixCheck_append_right ("SyntaxError: cannot read file".toList)
    readPreB (e ++ closeParenS) h
  simpa [readMsgB, List.append_assoc] using h2

/-- The tool-failure message of check_pyflakes is truthy (it starts with a
capital P, so it is never empty). -/
theorem pfFailMsg_truthy (rc : Int) : pyTruthy (some (pfFailMsg rc)) = true := rfl

/-- The tool-failure message of check_pyflakes is never the empty string. -/
theorem pfFailMsg_ne_nil (rc : Int) : pfFailMsg rc ≠ [] := by
  intro h
  unfold pfFailMsg at h
  rcases List.append_eq_nil.mp h with ⟨h1, _⟩
  exact absurd h1 (by decide)

/-- The tool-failure message of check_pyflakes does not carry the
pyflakes_runtime_error prefix that check_file maps to the error status. -/
theorem pfFailMsg_not_rte (rc : Int) : optHasPrefixRTE (some (pfFailMsg rc)) = false := rfl

/-- Concrete linter outcome: exit code 1 with no captured output. -/
def pfNoOut : PyflakesOutcome := PyflakesOutcome.completed 1 [] []

/-- Claim C3 counterexample: the linter subprocess exits non-zero with no
captured standard output on a syntactically clean file, and the overall
status is semantic_error, not the error status the claim requires. -/
theorem c3_counterexample :
    (check_file SyntaxOutcome.parseOk pfNoOut).status = stBSemanticError ∧
    (check_file SyntaxOutcome.parseOk pfNoOut).status ≠ stBError := by
  constructor
  · rfl
  · decide

/-- Claim C3 (amended): when the linter subprocess exits non-zero with no
captured standard output, the overall status is semantic_error carrying the
Pyflakes-execution-failed message (the error status is reserved for
messages carrying the pyflakes_runtime_error prefix, produced only for
subprocess launch failures); the priority order of the overall status is
syntax_error (stopping there), then error, then semantic_error, then ok. -/
theorem c3_amended :
    (∀ (rc : Int) (out errS : Str), rc ≠ 0 → pyStrip out = [] →
      check_file SyntaxOutcome.parseOk (PyflakesOutcome.completed rc out errS) =
        BResult.mk stBSemanticError (some (pfFailMsg rc))) ∧
    (∀ (synO : SyntaxOutcome) (pfO : PyflakesOutcome),
      pyTruthy (checkSyntaxB synO) = true →
      check_file synO pfO = BResult.mk stBSyntaxError (checkSyntaxB synO)) ∧
    (∀ (synO : SyntaxOutcome) (pfO : PyflakesOutcome),
      (check_file synO pfO).status ∈ statusEnumB) := by
  refine ⟨?_, ?_, ?_⟩
  · intro rc out errS h1 h2
    have hpf : check_pyflakes (PyflakesOutcome.completed rc out errS) = some (pfFailMsg rc) := by
      simp [check_pyflakes, h1, h2]
    simp [check_file, checkSyntaxB, pyTruthy, hpf, pfFailMsg_truthy, pfFailMsg_not_rte,
      pfFailMsg_ne_nil]
  · intro synO pfO h
    simp [check_file, h]
  · intro synO pfO
    unfold check_file
    split
    · simp [statusEnumB]
    · split
      · simp [statusEnumB]
      · split <;> simp [statusEnumB]

/-- Claim C3 amended witness: the amended theorem applied at exit code 1
with empty captured output, and at a concrete read failure for the
syntax-first priority conjunct. -/
theorem c3_amended_witness :
    check_file SyntaxOutcome.parseOk (PyflakesOutcome.completed 1 [] []) =
      BResult.mk stBSemanticError (some (pfFailMsg 1)) ∧
    check_file (SyntaxOutcome.readFail ("boom".toList)) pfNoOut =
      BResult.mk stBSyntaxError (checkSyntaxB (SyntaxOutcome.readFail ("boom".toList))) :=
  ⟨c3_amended.1 1 [] [] (by decide) (by decide),
   c3_amended.2.1 (SyntaxOutcome.readFail ("boom".toList)) pfNoOut (by decide)⟩

/-! ## Claim theorems for pipeline A: the import verifier -/

/-- Claim C1: for every import-verification attempt whose subprocess
completes, classification is three-way by exit status and the combined
captured output (the stripped concatenation of stdout and stderr): exit
code 0 gives SUCCESS with no detail; a non-zero exit whose combined output
contains the ModuleNotFoundError signature gives DEPENDENCY_FAILURE with
the captured output as detail; any other non-zero exit gives
RUNTIME_FAILURE with the captured output as detail. -/
theorem c1_import_classification (rel : Str) (rc : Int) (out err : Str)
    (hname : deriveModuleName rel ≠ []) :
    (rc = 0 →
      run_import_test (ImportOutcome.completed rc out err) rel = (stSuccess, none)) ∧
    (rc ≠ 0 → occurs mnfSig (pyStrip (out ++ err)) = true →
      run_import_test (ImportOutcome.completed rc out err) rel =
        (stDependencyFailure, some (pyStrip (out ++ err)))) ∧
    (rc ≠ 0 → occurs mnfSig (pyStrip (out ++ err)) = false →
      run_import_test (ImportOutcome.completed rc out err) rel =
        (stRuntimeFailure, some (pyStrip (out ++ err)))) := by
  refine ⟨?_, ?_, ?_⟩
  · intro h1
    simp [run_import_test, importResult, hname, h1]
  · intro h1 h2
    simp [run_import_test, importResult, hname, h1, h2]
  · intro h1 h2
    simp [run_import_test, importResult, hname, h1, h2]

/-- Concrete relative path used by several witnesses. -/
def mPyPath : Str := "m.py".toList

/-- Claim C1 witness: a completed subprocess with exit code 0 on a file
whose module name derives non-empty is classified SUCCESS with no detail. -/
theorem c1_witness :
    deriveModuleName mPyPath ≠ [] ∧
    run_import_test (ImportOutcome.completed 0 [] []) mPyPath = (stSuccess, none) :=
  ⟨by decide, (c1_import_classification mPyPath 0 [] [] (by decide)).1 rfl⟩

/-- Concrete relative path with a repeated extension substring. -/
def cexPathC5 : Str := "a.py.py".toList

/-- Module name derivation as the claim words it: path separators become
dots, only the trailing source-file extension is stripped, and only a
trailing package-initializer segment is collapsed away. -/
def moduleNameSpecC5 (relativePath : Str) : Str :=
  removeEnd segInit (removeEnd extPy (dotify relativePath))

/-- Claim C5 counterexample: on the relative path a.py.py the code removes
every occurrence of the extension substring and derives the module name a,
while stripping only the trailing extension would leave a.py; so the claim
as stated fails on the code. -/
theorem c5_counterexample :
    deriveModuleName cexPathC5 = "a".toList ∧
    moduleNameSpecC5 cexPathC5 = "a.py".toList ∧
    deriveModuleName cexPathC5 ≠ moduleNameSpecC5 cexPathC5 :=
  ⟨by decide, by decide, by decide⟩

/-- Claim C5 (amended): the dotted module name is derived by turning path
separators into dots, removing every occurrence of the source-file
extension substring (left to right, without overlap), and, when the result
ends in the package-initializer segment, removing every occurrence of that
segment; if the derived name is empty the result is immediately FAILURE
with the cannot-derive message and no import is attempted (the result is
the same for every subprocess outcome). -/
theorem c5_amended :
    (∀ rel : Str, deriveModuleName rel =
      (if endCheck segInit (removeAll extPy (dotify rel)) then
        removeAll segInit (removeAll extPy (dotify rel))
      else
        removeAll extPy (dotify rel))) ∧
    (∀ (rel : Str) (oc : ImportOutcome), deriveModuleName rel = [] →
      run_import_test oc rel = (stFailure, some deriveFailMsg)) := by
  constructor
  · intro rel
    rfl
  · intro rel oc h
    simp [run_import_test, h]

/-- Concrete relative path whose derived module name is empty. -/
def emptyPathC5 : Str := ".py".toList

/-- Claim C5 amended witness: the path consisting of the bare extension
derives the empty module name and run_import_test returns FAILURE without
consulting the subprocess outcome. -/
theorem c5_amended_witness :
    deriveModuleName emptyPathC5 = [] ∧
    run_import_test ImportOutcome.timedOut emptyPathC5 = (stFailure, some deriveFailMsg) :=
  ⟨by decide, c5_amended.2 emptyPathC5 ImportOutcome.timedOut (by decide)⟩

/-- Claim C7: an import-verification attempt that exceeds the wall-clock
timeout yields the generic FAILURE status (neither dependency nor runtime)
with a message citing the configured 15-second timeout value, and the main
loop turns it into an ordinary Check Result (no exception), so the run
continues with the next file. -/
theorem c7_timeout_failure (rel : Str) (hname : deriveModuleName rel ≠ []) :
    run_import_test ImportOutcome.timedOut rel = (stFailure, some timeoutMsg) ∧
    occurs (natStr TIMEOUT_SECONDS) timeoutMsg = true ∧
    processFile (FileInput.mk rel SyntaxOutcome.parseOk ImportOutcome.timedOut) =
      Except.ok (CheckResult.mk (basename rel) stFailure (some timeoutMsg)) := by
  have h1 : run_import_test ImportOutcome.timedOut rel = (stFailure, some timeoutMsg) := by
    simp [run_import_test, importResult, hname]
  have h2 : diagOk stFailure (some timeoutMsg) = Except.ok () := rfl
  refine ⟨h1, by decide, ?_⟩
  simp [processFile, checkSyntaxA, stage2, h1, h2]

/-- Claim C7 witness: the timeout outcome at a concrete path. -/
theorem c7_witness :
    deriveModuleName mPyPath ≠ [] ∧
    (run_import_test ImportOutcome.timedOut mPyPath = (stFailure, some timeoutMsg) ∧
     occurs (natStr TIMEOUT_SECONDS) timeoutMsg = true ∧
     processFile (FileInput.mk mPyPath SyntaxOutcome.parseOk ImportOutcome.timedOut) =
       Except.ok (CheckResult.mk (basename mPyPath) stFailure (some timeoutMsg))) :=
  ⟨by decide, c7_timeout_failure mPyPath (by decide)⟩

/-- Concrete per-file world for claim C9: the import subprocess exits with
code 1 and completely empty captured output. -/
def fiC9 : FileInput :=
  FileInput.mk mPyPath SyntaxOutcome.parseOk (ImportOutcome.completed 1 [] [])

/-- Claim C9: the claim asserts every non-SUCCESS detail from
run_import_test is non-empty so the diagnostic indexing into splitlines is
defined; the code violates it: a subprocess exiting 1 with empty combined
output yields RUNTIME_FAILURE with the empty string as detail, its
splitlines list is empty, and the main loop raises IndexError on the
last-line indexing instead of producing a Check Result. -/
theorem c9_empty_output_crash :
    run_import_test (ImportOutcome.completed 1 [] []) mPyPath =
      (stRuntimeFailure, some []) ∧
    splitlines [] = [] ∧
    processFile fiC9 = Except.error indexErrMsg :=
  ⟨rfl, rfl, rfl⟩

/-! ## Aggregator invariants -/

/-- The relation each emitted Check Result bears to its Target File: the
file field is the base name of the relative path, the status is one of the
five enum values, and the error detail is absent exactly for SUCCESS. -/
def resultMatches (fi : FileInput) (r : CheckResult) : Prop :=
  r.file = basename fi.relPath ∧ r.status ∈ statusEnum ∧
  (r.error = none ↔ r.status = stSuccess)

/-- SYNTAX_ERROR is one of the five statuses. -/
theorem mem_enum_synerr : stSyntaxError ∈ statusEnum := by decide

/-- SUCCESS is one of the five statuses. -/
theorem mem_enum_success : stSuccess ∈ statusEnum := by decide

/-- DEPENDENCY_FAILURE is one of the five statuses. -/
theorem mem_enum_dep : stDependencyFailure ∈ statusEnum := by decide

/-- RUNTIME_FAILURE is one of the five statuses. -/
theorem mem_enum_run : stRuntimeFailure ∈ statusEnum := by decide

/-- FAILURE is one of the five statuses. -/
theorem mem_enum_fail : stFailure ∈ statusEnum := by decide

/-- The five statuses are pairwise distinct where the invariant needs it. -/
theorem synerr_ne_success : stSyntaxError ≠ stSuccess := by decide

/-- DEPENDENCY_FAILURE is not SUCCESS. -/
theorem dep_ne_success : stDependencyFailure ≠ stSuccess := by decide

/-- RUNTIME_FAILURE is not SUCCESS. -/
theorem run_ne_success : stRuntimeFailure ≠ stSuccess := by decide

/-- FAILURE is not SUCCESS. -/
theorem fail_ne_success : stFailure ≠ stSuccess := by decide

/-- Whatever the completed, timed out or failed-to-launch subprocess gave,
the classification is one of the four stage-two statuses and its detail is
absent exactly for SUCCESS. -/
theorem importResult_inv (oc : ImportOutcome) :
    (importResult oc).1 ∈ statusEnum ∧
    ((importResult oc).2 = none ↔ (importResult oc).1 = stSuccess) := by
  cases oc with
  | completed rc out err =>
    simp only [importResult]
    by_cases h1 : rc ≠ 0
    · rw [if_pos h1]
      by_cases h2 : occurs mnfSig (pyStrip (out ++ err)) = true
      · rw [if_pos h2]
        exact ⟨mem_enum_dep, iff_of_false (Option.some_ne_none _) dep_ne_success⟩
      · rw [if_neg h2]
        exact ⟨mem_enum_run, iff_of_false (Option.some_ne_none _) run_ne_success⟩
    · rw [if_neg h1]
      exact ⟨mem_enum_success, iff_of_true rfl rfl⟩
  | timedOut =>
    exact ⟨mem_enum_fail, iff_of_false (Option.some_ne_none _) fail_ne_success⟩
  | launchFail e =>
    exact ⟨mem_enum_fail, iff_of_false (Option.some_ne_none _) fail_ne_success⟩

/-- Whatever the subprocess outcome, run_import_test returns one of the four
stage-two statuses, and its detail is absent exactly for SUCCESS. -/
theorem run_import_test_inv (oc : ImportOutcome) (rel : Str) :
    (run_import_test oc rel).1 ∈ statusEnum ∧
    ((run_import_test oc rel).2 = none ↔ (run_import_test oc rel).1 = stSuccess) := by
  unfold run_import_test
  split
  · exact ⟨mem_enum_fail, iff_of_false (Option.some_ne_none _) fail_ne_success⟩
  · exact importResult_inv oc

/-- Stage two of the main loop, when it returns a result, returns one
satisfying the report invariant. -/
theorem stage2_inv (fi : FileInput) (r : CheckResult) (h : stage2 fi = Except.ok r) :
    resultMatches fi r := by
  unfold stage2 at h
  split at h
  · exact Except.noConfusion h
  · injection h with h2
    subst h2
    exact ⟨rfl, (run_import_test_inv fi.imp fi.relPath).1,
      (run_import_test_inv fi.imp fi.relPath).2⟩

/-- Each main-loop iteration, when it returns a result, returns one
satisfying the report invariant. -/
theorem processFile_inv (fi : FileInput) (r : CheckResult)
    (h : processFile fi = Except.ok r) : resultMatches fi r := by
  unfold processFile at h
  split at h
  · split at h
    · exact stage2_inv fi r h
    · split at h
      · exact Except.noConfusion h
      · injection h with h2
        subst h2
        exact ⟨rfl, mem_enum_synerr, iff_of_false (Option.some_ne_none _) synerr_ne_success⟩
  · exact stage2_inv fi r h

/-- The whole loop, when it completes, produces results matching the input
files pointwise in order. -/
theorem processAll_inv (fis : List FileInput) (rs : List CheckResult)
    (h : processAll fis = Except.ok rs) : List.Forall₂ resultMatches fis rs := by
  induction fis generalizing rs with
  | nil =>
    unfold processAll at h
    injection h with h2
    subst h2
    exact List.Forall₂.nil
  | cons fi rest ih =>
    unfold processAll at h
    split at h
    · exact Except.noConfusion h
    · next r heq =>
      split at h
      · exact Except.noConfusion h
      · next rs2 heq2 =>
        injection h with h2
        subst h2
        exact List.Forall₂.cons (processFile_inv fi r heq) (ih rs2 heq2)

/-- Claim C2: when provisioning succeeds and the run completes, the emitted
report has exactly one Check Result per target file, in input order; every
status is one of the five enum values and the error detail is non-null
exactly when the status is not SUCCESS. -/
theorem c2_report_shape (w : WorldA) (outR : RunOutcome)
    (hrun : mainA w = Except.ok outR) (hinst : install_dependencies w = true) :
    outR.report.length = w.files.length ∧
    List.Forall₂ resultMatches w.files outR.report := by
  unfold mainA at hrun
  split at hrun
  case isTrue =>
    split at hrun
    · exact Except.noConfusion hrun
    · next results heq =>
      have hf := processAll_inv w.files results heq
      split at hrun <;>
      · injection hrun with h2
        subst h2
        exact ⟨(List.Forall₂.length_eq hf).symm, hf⟩
  case isFalse hc => exact absurd hinst hc

/-- A completed run records exit code 0 or 1, never anything else. -/
theorem mainA_exit01 (w : WorldA) (outR : RunOutcome)
    (h : mainA w = Except.ok outR) : outR.exitCode = 0 ∨ outR.exitCode = 1 := by
  unfold mainA at h
  split at h
  · split at h
    · exact Except.noConfusion h
    · split at h <;>
      · injection h with h2
        subst h2
        exact Or.inl rfl
  · injection h with h2
    subst h2
    exact Or.inr rfl

/-- A failed install_dependencies makes main exit 1 at once with an empty,
unemitted report and no cleanup. -/
theorem mainA_abort (w : WorldA) (hf : install_dependencies w = false) :
    mainA w = Except.ok (RunOutcome.mk 1 [] false w.venvDirMade false) := by
  have hne : ¬ install_dependencies w = true :=
    fun h => Bool.false_ne_true (hf.symm.trans h)
  unfold mainA
  rw [if_neg hne]

/-- Claim C6 (amended): the process exit status is always 0 or 1.  It is 1
when environment creation or dependency installation fails, an abort that
happens before any file is checked (empty report, nothing emitted, no
cleanup); it is also 1 when a run past provisioning is killed by an
uncaught exception (reachable through the empty-output defect of claim C9),
since the interpreter exits such a run with status 1 and no report is
emitted.  On normal completion of the full run the recorded exit status is
0 regardless of the individual per-file verdicts. -/
theorem c6_exit_codes_amended (w : WorldA) :
    (processExitCode w = 0 ∨ processExitCode w = 1) ∧
    (install_dependencies w = false →
      processExitCode w = 1 ∧
      mainA w = Except.ok (RunOutcome.mk 1 [] false w.venvDirMade false)) ∧
    (∀ outR : RunOutcome, mainA w = Except.ok outR → install_dependencies w = true →
      outR.exitCode = 0 ∧ outR.reportEmitted = true) ∧
    (∀ e : Str, mainA w = Except.error e →
      install_dependencies w = true ∧ processExitCode w = 1) := by
  refine ⟨?_, ?_, ?_, ?_⟩
  · unfold processExitCode
    cases hm : mainA w with
    | ok outR => exact mainA_exit01 w outR hm
    | error e => exact Or.inr rfl
  · intro hf
    refine ⟨?_, mainA_abort w hf⟩
    unfold processExitCode
    rw [mainA_abort w hf]
  · intro outR hr ht
    unfold mainA at hr
    split at hr
    case isTrue =>
      split at hr
      · exact Except.noConfusion hr
      · split at hr <;>
        · injection hr with h2
          subst h2
          exact ⟨rfl, rfl⟩
    case isFalse hc => exact absurd ht hc
  · intro e he
    constructor
    · cases hI : install_dependencies w with
      | true => rfl
      | false =>
        rw [mainA_abort w hI] at he
        exact Except.noConfusion he
    · unfold processExitCode
      rw [he]

/-- Claim C4 (amended): after a pipeline-A run that completes normally
(provisioning and installation succeeded), the isolated environment path no
longer exists on disk, except when the deletion itself failed, in which
case a warning is recorded, no exception reaches the caller and the exit
status stays 0.  A run that aborts on a provisioning or installation
failure performs no cleanup and may leave the environment directory on
disk. -/
theorem c4_cleanup_amended (w : WorldA) (outR : RunOutcome)
    (hrun : mainA w = Except.ok outR) (hinst : install_dependencies w = true) :
    (outR.venvExists = true → outR.cleanupWarn = true) ∧ outR.exitCode = 0 := by
  unfold mainA at hrun
  split at hrun
  case isTrue =>
    split at hrun
    · exact Except.noConfusion hrun
    · split at hrun
      · injection hrun with h2
        subst h2
        exact ⟨fun hx => absurd hx Bool.false_ne_true, rfl⟩
      · injection hrun with h2
        subst h2
        exact ⟨fun _ => rfl, rfl⟩
  case isFalse hc => exact absurd hinst hc

/-! ## Concrete worlds for the aggregator claims -/

/-- A target file that parses and imports cleanly. -/
def fileOkInput : FileInput :=
  FileInput.mk mPyPath SyntaxOutcome.parseOk (ImportOutcome.completed 0 [] [])

/-- A world whose dependency installation fails after the environment
directory was created: requirements.txt is present and pip install fails. -/
def wAbort : WorldA :=
  WorldA.mk true true true (some DepKind.requirementsTxt) true false [fileOkInput] true

/-- The outcome of the aborted run: exit 1, nothing checked, the
environment directory still on disk, no cleanup warning. -/
def outAbort : RunOutcome := RunOutcome.mk 1 [] false true false

/-- Claim C4 counterexample: a run aborting on an installation failure
leaves the isolated environment path on disk with no deletion failure and
no warning, contradicting the claim that the path no longer exists after
any run except when deletion failed with a warning. -/
theorem c4_counterexample :
    mainA wAbort = Except.ok outAbort ∧
    outAbort.venvExists = true ∧ outAbort.cleanupWarn = false :=
  ⟨rfl, rfl, rfl⟩

/-- A world where everything succeeds, including cleanup. -/
def wGood : WorldA := WorldA.mk true true true none true true [fileOkInput] true

/-- The outcome of the clean run. -/
def outGood : RunOutcome :=
  RunOutcome.mk 0 [CheckResult.mk mPyPath stSuccess none] true false false

/-- A world identical to the clean one except that the cleanup deletion
fails. -/
def wWarn : WorldA := WorldA.mk true true true none true true [fileOkInput] false

/-- The outcome of the run with failed cleanup: still exit 0, with the
directory left on disk and the warning recorded. -/
def outWarn : RunOutcome :=
  RunOutcome.mk 0 [CheckResult.mk mPyPath stSuccess none] true true true

/-- Claim C2 witness: the report-shape theorem applied to a concrete
completed one-file run. -/
theorem c2_witness :
    mainA wGood = Except.ok outGood ∧ install_dependencies wGood = true ∧
    (outGood.report.length = wGood.files.length ∧
     List.Forall₂ resultMatches wGood.files outGood.report) :=
  ⟨rfl, rfl, c2_report_shape wGood outGood rfl rfl⟩

/-- A world whose provisioning and installation succeed but whose only
target file drives the main loop into the uncaught IndexError of claim C9:
the import subprocess exits 1 with empty captured output. -/
def wCrash : WorldA := WorldA.mk true true true none true true [fiC9] true

/-- Claim C6 counterexample: a run whose environment creation and
dependency installation succeed is killed by the uncaught IndexError of
the diagnostic print on its first file, and the interpreter then exits
with status 1; so the process exit status is 1 without any provisioning
or installation failure, refuting the only-if direction of the claim. -/
theorem c6_counterexample :
    install_dependencies wCrash = true ∧
    mainA wCrash = Except.error indexErrMsg ∧
    processExitCode wCrash = 1 :=
  ⟨rfl, rfl, rfl⟩

/-- Claim C6 amended witness: the amended theorem applied to the aborting
world, to a concrete completed run, and to the crashing world. -/
theorem c6_amended_witness :
    (install_dependencies wAbort = false ∧
     (processExitCode wAbort = 1 ∧
      mainA wAbort = Except.ok (RunOutcome.mk 1 [] false wAbort.venvDirMade false))) ∧
    (mainA wGood = Except.ok outGood ∧ install_dependencies wGood = true ∧
     (outGood.exitCode = 0 ∧ outGood.reportEmitted = true)) ∧
    (mainA wCrash = Except.error indexErrMsg ∧
     (install_dependencies wCrash = true ∧ processExitCode wCrash = 1)) :=
  ⟨⟨rfl, (c6_exit_codes_amended wAbort).2.1 rfl⟩,
   ⟨rfl, rfl, (c6_exit_codes_amended wGood).2.2.1 outGood rfl rfl⟩,
   ⟨rfl, (c6_exit_codes_amended wCrash).2.2.2 indexErrMsg rfl⟩⟩

/-- Claim C4 amended witness: the cleanup theorem applied to the concrete
run whose deletion fails, showing the warning and the unchanged exit
status. -/
theorem c4_witness :
    mainA wWarn = Except.ok outWarn ∧ install_dependencies wWarn = true ∧
    ((outWarn.venvExists = true → outWarn.cleanupWarn = true) ∧ outWarn.exitCode = 0) :=
  ⟨rfl, rfl, c4_cleanup_amended wWarn outWarn rfl rfl⟩
